/-
Verification of the myfin-api category and user services.

Shallow embedding of `src/services/categoryService.ts` and of the user
service (`src/unnamed/part_000`).  Database tables are Lean lists of
records; the raw MySQL queries issued through the Prisma tagged-template
`$queryRaw` are embedded twice:

* as executable semantics (the rows the database returns), and
* as `SqlQuery` values (constant query text plus the list of bound
  parameters), reflecting that a tagged template sends a fixed text and
  binds every interpolated value as a parameter.

Machine integers are modelled as `Int` (MySQL BIGINT arithmetic on the
sizes involved never overflows); `DECIMAL` results of `truncate(x, 2)`
are modelled as `Rat`.
-/
import Mathlib

namespace Myfin

/-! Section: MySQL value coercion

`$queryRaw` binds each interpolated value as one parameter, so the string
built by `buildSqlForExcludedAccountsList` reaches MySQL as a single
string value inside `NOT IN (?)`.  MySQL compares an integer column with
a string constant numerically: the string is coerced to a number using
its leading numeric part (after leading spaces), defaulting to 0. -/

/-- Value of the leading run of digits of `cs`. -/
def digitsVal (cs : List Char) : Int :=
  (cs.takeWhile (fun c => c.isDigit)).foldl (fun acc c => acc * 10 + ((c.toNat : Int) - 48)) 0

/-- MySQL numeric coercion of a string: skip leading spaces, optional
sign, then the leading run of digits; a string with no leading number
coerces to 0. -/
def mysqlStringToInt (s : String) : Int :=
  let cs := s.toList.dropWhile (fun c => c == ' ')
  match cs with
  | [] => 0
  | c :: rest =>
    if c == '-' then -(digitsVal rest)
    else if c == '+' then digitsVal rest
    else digitsVal cs

/-- Evaluation of `col NOT IN (?)` where the single bound parameter is the
string `s` and the column holds `v`.  A NULL column makes the predicate
NULL, which `IF` treats as false. -/
def mysqlIntNotInStringParam (v : Option Int) (s : String) : Bool :=
  match v with
  | none => false
  | some i => i != mysqlStringToInt s

/-! Section: Data model (tables touched by the category aggregations) -/

/-- Row of the `accounts` table (the fields the category service reads). -/
structure Account where
  account_id : Int
  exclude_from_budgets : Bool
deriving DecidableEq

/-- Row of the `transactions` table (the fields the aggregations read). -/
structure Transaction where
  amount : Int
  type : String
  date_timestamp : Int
  categories_category_id : Int
  accounts_account_to_id : Option Int
  accounts_account_from_id : Option Int
deriving DecidableEq

/-- The tables read by the amount aggregations. -/
structure FinDb where
  accounts : List Account
  transactions : List Transaction
deriving DecidableEq

/-- Result row of the period aggregation query. -/
structure CatAmountRow where
  category_balance_credit : Int
  category_balance_debit : Int
deriving DecidableEq

/-! Section: buildSqlForExcludedAccountsList -/

/-- The loop of `buildSqlForExcludedAccountsList`: each account id is
wrapped as ` \x27id\x27 ` and `, ` is appended after every entry except
the last (`cnt !== excludedAccs.length - 1`). -/
def buildSqlForExcludedAccountsListLoop : List Account → String
  | [] => ""
  | [a] => " \x27" ++ toString a.account_id ++ "\x27 "
  | a :: rest =>
      " \x27" ++ toString a.account_id ++ "\x27 " ++ ", " ++
        buildSqlForExcludedAccountsListLoop rest

/-- Function `buildSqlForExcludedAccountsList`; the argument `none` models a
null/undefined argument. -/
def buildSqlForExcludedAccountsList (excludedAccs : Option (List Account)) : String :=
  match excludedAccs with
  | none => " -1 "
  | some l => if l.length = 0 then " -1 " else buildSqlForExcludedAccountsListLoop l

/-- The exclusion-list string the period query builds from the database:
`findMany({where: {exclude_from_budgets: true}})` piped into
`buildSqlForExcludedAccountsList`. -/
def excludedAccountsSql (db : FinDb) : String :=
  buildSqlForExcludedAccountsList (some (db.accounts.filter (fun a => a.exclude_from_budgets)))

/-! Section: getAmountForCategoryInPeriod (executed semantics) -/

/-- The `WHERE date_timestamp between ? AND ? AND categories_category_id = ?`
filter (SQL `BETWEEN` is inclusive on both ends). -/
def inPeriodWhere (categoryId fromDate toDate : Int) (tx : Transaction) : Bool :=
  decide (fromDate ≤ tx.date_timestamp) && decide (tx.date_timestamp ≤ toDate) &&
    (tx.categories_category_id == categoryId)

/-- SQL `SUM(IF(p, amount, 0))` over the rows passing the `WHERE` clause. -/
def sumAmountIf (txs : List Transaction) (p : Transaction → Bool) : Int :=
  (txs.map (fun tx => if p tx then tx.amount else 0)).sum

/-- Rows returned by `getAmountForCategoryInPeriod`.  The single bound
string `excludedAccountsSql db` stands inside `NOT IN (?)`, so the
comparison follows `mysqlIntNotInStringParam`.  The query has no
`GROUP BY`, hence exactly one row. -/
def getAmountForCategoryInPeriod (db : FinDb) (categoryId fromDate toDate : Int)
    (includeTransfers : Bool) : List CatAmountRow :=
  let accountsToExcludeListInSQL := excludedAccountsSql db
  let rows := db.transactions.filter (inPeriodWhere categoryId fromDate toDate)
  if includeTransfers then
    [{ category_balance_credit := sumAmountIf rows (fun tx =>
         (tx.type == "I") ||
           ((tx.type == "T") &&
             mysqlIntNotInStringParam tx.accounts_account_to_id accountsToExcludeListInSQL)),
       category_balance_debit := sumAmountIf rows (fun tx =>
         (tx.type == "E") ||
           ((tx.type == "T") &&
             mysqlIntNotInStringParam tx.accounts_account_from_id accountsToExcludeListInSQL)) }]
  else
    [{ category_balance_credit := sumAmountIf rows (fun tx => tx.type == "I"),
       category_balance_debit := sumAmountIf rows (fun tx => tx.type == "E") }]

/-- Follows the wording of claim C1: the credit sum with genuine
set-membership exclusion — a transfer counts when its destination account
is not in the set of accounts marked `exclude_from_budgets`. -/
def claimedCreditInPeriod (db : FinDb) (categoryId fromDate toDate : Int) : Int :=
  let excludedIds := (db.accounts.filter (fun a => a.exclude_from_budgets)).map
    (fun a => a.account_id)
  sumAmountIf (db.transactions.filter (inPeriodWhere categoryId fromDate toDate)) (fun tx =>
    (tx.type == "I") ||
      ((tx.type == "T") &&
        (match tx.accounts_account_to_id with
         | some i => !(excludedIds.contains i)
         | none => false)))

/-- Follows the wording of claim C1: the analogous debit sum over type E
transactions and transfers from a non-excluded source account. -/
def claimedDebitInPeriod (db : FinDb) (categoryId fromDate toDate : Int) : Int :=
  let excludedIds := (db.accounts.filter (fun a => a.exclude_from_budgets)).map
    (fun a => a.account_id)
  sumAmountIf (db.transactions.filter (inPeriodWhere categoryId fromDate toDate)) (fun tx =>
    (tx.type == "E") ||
      ((tx.type == "T") &&
        (match tx.accounts_account_from_id with
         | some i => !(excludedIds.contains i)
         | none => false)))

/-! Section: Calendar model

`DateTimeUtils.getUnixTimestampFromDate` is not under `src/`. -/

/-- Days from 1970-01-01 to the civil date `y-m-d` (proleptic Gregorian,
month in 1..12), the standard era-based conversion.  All uses in this
development have nonnegative intermediate values, where every integer
division convention agrees. -/
def daysFromCivil (y m d : Int) : Int :=
  let y2 := if m ≤ 2 then y - 1 else y
  let era := (if 0 ≤ y2 then y2 else y2 - 399) / 400
  let yoe := y2 - era * 400
  let doy := (153 * (m + (if 2 < m then -3 else 9)) + 2) / 5 + d - 1
  let doe := yoe * 365 + yoe / 4 - yoe / 100 + doy
  era * 146097 + doe - 719468

/-- Modelled from the spec: `DateTimeUtils.getUnixTimestampFromDate` is
not part of the sources; the date-range computation of the spec converts a
JS `Date(year, monthIndex, day)` (midnight, month index 0-based) to a
unix timestamp in seconds.  The timezone is modelled as UTC. -/
def getUnixTimestampFromDate (year monthIndex day : Int) : Int :=
  86400 * daysFromCivil year (monthIndex + 1) day

/-- The unix timestamp of the first instant (midnight of day 1) of month
`m` (1-based) of year `y`. -/
def firstInstantOfMonth (y m : Int) : Int :=
  86400 * daysFromCivil y m 1

/-- Function `getAmountForCategoryInMonth`: computes `minDate`/`maxDate` from the
month and its successor and returns `amounts[0]` of the period query. -/
def getAmountForCategoryInMonth (db : FinDb) (categoryId month year : Int)
    (includeTransfers : Bool) : Option CatAmountRow :=
  let nextMonth := if month < 12 then month + 1 else 1
  let nextMonthsYear := if month < 12 then year else year + 1
  let maxDate := getUnixTimestampFromDate nextMonthsYear (nextMonth - 1) 1
  let minDate := getUnixTimestampFromDate year (month - 1) 1
  (getAmountForCategoryInPeriod db categoryId minDate maxDate includeTransfers).head?

/-- Function `getAmountForCategoryInYear`: window from `Date(year, 0, 1)` to
`Date(year, 11, 31)` (midnight at the start of December 31). -/
def getAmountForCategoryInYear (db : FinDb) (categoryId year : Int)
    (includeTransfers : Bool) : Option CatAmountRow :=
  let maxDate := getUnixTimestampFromDate year 11 31
  let minDate := getUnixTimestampFromDate year 0 1
  (getAmountForCategoryInPeriod db categoryId minDate maxDate includeTransfers).head?

/-! Section: Issued queries (C4)

A Prisma tagged-template `$queryRaw` sends a fixed query text in which
every interpolated expression is replaced by a placeholder, and binds the
expression values as parameters. -/

/-- A value bound as a query parameter. -/
inductive SqlParam where
  | int (i : Int)
  | str (s : String)
deriving DecidableEq

/-- A query as sent to the database: fixed text with `?` placeholders,
plus the bound parameters in order. -/
structure SqlQuery where
  text : String
  params : List SqlParam
deriving DecidableEq

/-- Text of the `includeTransfers` branch of `getAmountForCategoryInPeriod`
(whitespace normalised). -/
def periodTransfersQueryText : String :=
  "SELECT sum(if(type = \x27I\x27 OR (type = \x27T\x27 AND accounts_account_to_id NOT IN (?)), amount, 0)) as \x27category_balance_credit\x27, sum(if(type = \x27E\x27 OR (type = \x27T\x27 AND accounts_account_from_id NOT IN (?)), amount, 0)) as \x27category_balance_debit\x27 FROM transactions WHERE date_timestamp between ? AND ? AND categories_category_id = ?"

/-- Text of the no-transfers branch of `getAmountForCategoryInPeriod`. -/
def periodNoTransfersQueryText : String :=
  "SELECT sum(if(type = \x27I\x27, amount, 0)) as \x27category_balance_credit\x27, sum(if(type = \x27E\x27, amount, 0)) as \x27category_balance_debit\x27 FROM transactions WHERE date_timestamp between ? AND ? AND categories_category_id = ?"

/-- Text of the `getAverageAmountForCategoryInLast12Months` query. -/
def avgLast12MonthsQueryText : String :=
  "SELECT avg(category_balance_credit) as \x27category_balance_credit\x27, avg(category_balance_debit) as \x27category_balance_debit\x27 FROM (SELECT sum(if(type = \x27I\x27 OR (type = \x27T\x27 AND ?), amount, 0)) as \x27category_balance_credit\x27, sum(if(type = \x27E\x27 OR (type = \x27T\x27 AND ?), amount, 0)) as \x27category_balance_debit\x27, MONTH(FROM_UNIXTIME(date_timestamp)) as \x27month\x27, YEAR(FROM_UNIXTIME(date_timestamp)) as \x27year\x27 FROM transactions WHERE categories_category_id = ? AND date_timestamp > UNIX_TIMESTAMP(DATE_SUB(DATE_FORMAT(NOW(), \x27%Y-%m-01\x27), INTERVAL 12 month)) GROUP BY month, year) a"

/-- The query `getAmountForCategoryInPeriod` issues: the exclusion-list
string and the numeric bounds are interpolated, hence bound as
parameters. -/
def getAmountForCategoryInPeriodQuery (db : FinDb) (categoryId fromDate toDate : Int)
    (includeTransfers : Bool) : SqlQuery :=
  let accountsToExcludeListInSQL := excludedAccountsSql db
  if includeTransfers then
    { text := periodTransfersQueryText,
      params := [.str accountsToExcludeListInSQL, .str accountsToExcludeListInSQL,
                 .int fromDate, .int toDate, .int categoryId] }
  else
    { text := periodNoTransfersQueryText,
      params := [.int fromDate, .int toDate, .int categoryId] }

/-- The `accsExclusionSqlExcerptAccountsTo` fragment built by
`getAverageAmountForCategoryInLast12Months`. -/
def avgExclusionFragmentTo (db : FinDb) : String :=
  let l := db.accounts.filter (fun a => a.exclude_from_budgets)
  if l.length < 1 then " 1 == 1 "
  else "accounts_account_to_id NOT IN " ++ buildSqlForExcludedAccountsList (some l) ++ " "

/-- The `accsExclusionSqlExcerptAccountsFrom` fragment built by
`getAverageAmountForCategoryInLast12Months`. -/
def avgExclusionFragmentFrom (db : FinDb) : String :=
  let l := db.accounts.filter (fun a => a.exclude_from_budgets)
  if l.length < 1 then " 1 == 1 "
  else "accounts_account_from_id NOT IN " ++ buildSqlForExcludedAccountsList (some l) ++ " "

/-- The query `getAverageAmountForCategoryInLast12Months` issues: the two
SQL-fragment strings and the category id are interpolated, hence bound as
parameters (in both the empty and the non-empty exclusion-list branch the
template — and so the text — is the same). -/
def getAverageAmountForCategoryInLast12MonthsQuery (db : FinDb) (categoryId : Int) :
    SqlQuery :=
  { text := avgLast12MonthsQueryText,
    params := [.str (avgExclusionFragmentTo db), .str (avgExclusionFragmentFrom db),
               .int categoryId] }

/-! Section: Categories, budgets_has_categories and getAllCategoriesForBudget (C7, C10) -/

/-- Row of the `categories` table. -/
structure Category where
  users_user_id : Int
  category_id : Int
  name : String
  status : String
  type : String
  description : String
  color_gradient : String
  exclude_from_budgets : Bool
deriving DecidableEq

/-- Row of the `budgets_has_categories` table. -/
structure BudgetHasCategoriesRow where
  budgets_users_user_id : Int
  budgets_budget_id : Int
  categories_category_id : Int
  planned_amount_credit : Option Int
  planned_amount_debit : Option Int
  current_amount : Option Int
deriving DecidableEq

/-- The tables read and written by the category CRUD and budget join. -/
structure CatDb where
  categories : List Category
  budgets_has_categories : List BudgetHasCategoriesRow
deriving DecidableEq

/-- Truncation of a rational toward zero (SQL `truncate(x, 0)`); both
division operands are nonnegative, so the division convention is
unambiguous. -/
def truncRat (q : Rat) : Int :=
  if 0 ≤ q.num then q.num / (q.den : Int) else -((-q.num) / (q.den : Int))

/-- MySQL `truncate(q, 2)`: truncation of `q` toward zero at two decimal
places. -/
def mysqlTruncate2 (q : Rat) : Rat :=
  ((truncRat (q * 100) : Int) : Rat) / 100

/-- SQL `truncate((coalesce(x, 0) / 100), 2)`: the monetary output of
`getAllCategoriesForBudget` for a stored integer amount `x` (NULL when no
`budgets_has_categories` row matched). -/
def moneyOut (x : Option Int) : Rat :=
  mysqlTruncate2 (((x.getD 0 : Int) : Rat) / 100)

/-- A result row of `getAllCategoriesForBudget`. -/
structure BudgetCategoryRow where
  users_user_id : Int
  category_id : Int
  name : String
  status : String
  type : String
  description : String
  color_gradient : String
  budgets_budget_id : Option Int
  exclude_from_budgets : Bool
  planned_amount_credit : Rat
  planned_amount_debit : Rat
  current_amount : Rat
deriving DecidableEq

/-- One joined row: category fields plus the (possibly NULL) budget
fields of the right join, with the three monetary outputs. -/
def joinRow (c : Category) (b : Option BudgetHasCategoriesRow) : BudgetCategoryRow :=
  { users_user_id := c.users_user_id
    category_id := c.category_id
    name := c.name
    status := c.status
    type := c.type
    description := c.description
    color_gradient := c.color_gradient
    budgets_budget_id := b.map (fun r => r.budgets_budget_id)
    exclude_from_budgets := c.exclude_from_budgets
    planned_amount_credit := moneyOut (b.bind (fun r => r.planned_amount_credit))
    planned_amount_debit := moneyOut (b.bind (fun r => r.planned_amount_debit))
    current_amount := moneyOut (b.bind (fun r => r.current_amount)) }

/-- Function `getAllCategoriesForBudget`: the filtered `budgets_has_categories`
subquery is right-joined onto `categories` (every category row is kept,
with NULL budget fields when unmatched), then filtered by
`users_user_id = ? AND status = ?`.  The status constant
`MYFIN.CATEGORY_STATUS.ACTIVE` lives in `consts.js`, outside the sources,
and is passed here as the parameter `active`. -/
def getAllCategoriesForBudget (db : CatDb) (userId budgetId : Int) (active : String) :
    List BudgetCategoryRow :=
  let b := db.budgets_has_categories.filter (fun r =>
    (r.budgets_users_user_id == userId) && (r.budgets_budget_id == budgetId))
  let joined := db.categories.flatMap (fun c =>
    let ms := b.filter (fun r => r.categories_category_id == c.category_id)
    if ms.isEmpty then [joinRow c none] else ms.map (fun r => joinRow c (some r)))
  joined.filter (fun row => (row.users_user_id == userId) && (row.status == active))

/-! Section: deleteCategory and the Prisma batch transaction (C10) -/

/-- The two operations `deleteCategory` batches. -/
inductive DbOp where
  | deleteManyBudgetHasCategoriesRefs (userId categoryId : Int)
  | deleteCategoryRow (userId categoryId : Int)
deriving DecidableEq

/-- Effect of one operation.  `deleteMany` always succeeds;
`categories.delete` fails (Prisma throws P2025) when no row matches its
`where`, which aborts the surrounding transaction. -/
def applyOp (s : CatDb) : DbOp → Option CatDb
  | .deleteManyBudgetHasCategoriesRefs userId categoryId =>
      some { s with budgets_has_categories := s.budgets_has_categories.filter (fun r =>
        !((r.categories_category_id == categoryId) &&
          (r.budgets_users_user_id == userId))) }
  | .deleteCategoryRow userId categoryId =>
      if s.categories.any (fun c => (c.users_user_id == userId) && (c.category_id == categoryId))
      then some { s with categories := s.categories.filter (fun c =>
        !((c.users_user_id == userId) && (c.category_id == categoryId))) }
      else none

/-- Model of `prisma.$transaction`: the batched operations run sequentially
and atomically — if one fails, none is committed. -/
def prismaTransaction (s : CatDb) : List DbOp → Option CatDb
  | [] => some s
  | op :: rest =>
    match applyOp s op with
    | none => none
    | some s2 => prismaTransaction s2 rest

/-- The batch `deleteCategory` passes to `prisma.$transaction`. -/
def deleteCategoryOps (userId categoryId : Int) : List DbOp :=
  [.deleteManyBudgetHasCategoriesRefs userId categoryId,
   .deleteCategoryRow userId categoryId]

/-- Database state after `deleteCategory(userId, categoryId)`: the
committed state on success, the unchanged state when the transaction
rolled back. -/
def deleteCategory (s : CatDb) (userId categoryId : Int) : CatDb :=
  match prismaTransaction s (deleteCategoryOps userId categoryId) with
  | some committed => committed
  | none => s

/-! Section: User service (`src/unnamed/part_000`): createUser, attemptLogin,
changeUserPassword

`cryptoUtils.hashPassword` / `verifyPassword`,
`SessionManager.generateNewSessionKeyForUser`,
`AccountService.getAccountsForUser` and
`ConvertUtils.convertBigIntegerToFloat` are not under `src/`; modelled
from the spec ("hash a password, look up a row") as abstract function
parameters collected in `LoginEnv`. -/

/-- Errors of type `APIError` as raised by the user service. -/
inductive ApiError where
  | notAuthorized (message : String)
deriving DecidableEq

/-- Row of the `users` table (the fields the user service touches). -/
structure UserRec where
  user_id : Int
  username : String
  password : String
  email : String
  sessionkey : Option String
  sessionkey_mobile : Option String
  trustlimit : Option Int
  trustlimit_mobile : Option Int
  last_update_timestamp : Option Int
deriving DecidableEq

/-- Result of `SessionManager.generateNewSessionKeyForUser`. -/
structure SessionData where
  sessionkey : String
  trustlimit : Int
deriving DecidableEq

/-- Row of the `accounts` table as returned by
`AccountService.getAccountsForUser`. -/
structure AccountRec where
  account_id : Int
  current_balance : Option Int
deriving DecidableEq

/-- An account as returned by `attemptLogin`: the account spread together
with the converted `balance` field. -/
structure LoginAccount where
  account : AccountRec
  balance : Rat
deriving DecidableEq

/-- The object `attemptLogin` returns. -/
structure LoginResult where
  user_id : Int
  username : String
  email : String
  sessionkey : Option String
  sessionkey_mobile : Option String
  last_update_timestamp : Option Int
  accounts : List LoginAccount
deriving DecidableEq

/-- Modelled from the spec: the helpers the user service delegates to,
whose sources are not in the repository slice ("hash a password, look up
a row, ... map rows to a response shape"). -/
structure LoginEnv where
  hashPassword : String → String
  verifyPassword : String → String → Bool
  generateNewSessionKeyForUser : String → Bool → SessionData
  getAccountsForUser : Int → List AccountRec
  convertBigIntegerToFloat : Int → Rat

/-- Function `createUser`: the record handed to `User.create` is the input user
with its `password` field overwritten by the hash. -/
def createUser (env : LoginEnv) (user : UserRec) : UserRec :=
  { user with password := env.hashPassword user.password }

/-- Unique lookup of a user by username (`User.findUniqueOrThrow`). -/
def findUserByUsername (users : List UserRec) (username : String) : Option UserRec :=
  users.find? (fun u => u.username == username)

/-- Unique lookup of a user by user id (`User.findUniqueOrThrow`). -/
def findUserById (users : List UserRec) (userId : Int) : Option UserRec :=
  users.find? (fun u => u.user_id == userId)

/-- Function `attemptLogin`: looks the user up by username, verifies the password,
stores a fresh session key in the mobile or desktop slot, and returns the
response shape; failures raise `APIError.notAuthorized`. -/
def attemptLogin (env : LoginEnv) (users : List UserRec) (username password : String)
    (mobile : Bool) : Except ApiError LoginResult :=
  match findUserByUsername users username with
  | none => .error (.notAuthorized "User Not Found")
  | some found =>
    if env.verifyPassword password found.password then
      let newSessionData := env.generateNewSessionKeyForUser username mobile
      let data :=
        if mobile then
          { found with sessionkey_mobile := some newSessionData.sessionkey,
                       trustlimit_mobile := some newSessionData.trustlimit }
        else
          { found with sessionkey := some newSessionData.sessionkey,
                       trustlimit := some newSessionData.trustlimit }
      let userAccounts := env.getAccountsForUser data.user_id
      .ok { user_id := data.user_id
            username := data.username
            email := data.email
            sessionkey := data.sessionkey
            sessionkey_mobile := data.sessionkey_mobile
            last_update_timestamp := data.last_update_timestamp
            accounts := userAccounts.map (fun a =>
              { account := a
                balance := env.convertBigIntegerToFloat (a.current_balance.getD 0) }) }
    else .error (.notAuthorized "Wrong Credentials")

/-- Outcome of `changeUserPassword`: the error (if any), the `users`
table after the call, and the `generateNewSessionKeyForUser` calls made. -/
structure PwChangeOutcome where
  error : Option ApiError
  users : List UserRec
  sessionRegens : List (String × Bool)
deriving DecidableEq

/-- Function `changeUserPassword`: finds the user, verifies `currentPassword`,
and only then updates the stored password to the hash of `newPassword`
and regenerates the session key; both error paths leave the table
untouched. -/
def changeUserPassword (env : LoginEnv) (users : List UserRec) (userId : Int)
    (currentPassword newPassword : String) (mobile : Bool) : PwChangeOutcome :=
  match findUserById users userId with
  | none => { error := some (.notAuthorized "User Not Found"), users := users,
              sessionRegens := [] }
  | some found =>
    if env.verifyPassword currentPassword found.password then
      let hashedPassword := env.hashPassword newPassword
      { error := none
        users := users.map (fun u =>
          if u.user_id == userId then { u with password := hashedPassword } else u)
        sessionRegens := [(found.username, mobile)] }
    else
      { error := some (.notAuthorized "Wrong credentials"), users := users,
        sessionRegens := [] }

/-! Section: Concrete databases for the counterexamples and witnesses -/

/-- Account 7 is excluded from budgets; a transfer of 100 into it sits in
the window. -/
def exclusionBugDb : FinDb :=
  { accounts := [{ account_id := 7, exclude_from_budgets := true }],
    transactions := [{ amount := 100, type := "T", date_timestamp := 50,
                       categories_category_id := 1,
                       accounts_account_to_id := some 7,
                       accounts_account_from_id := some 3 }] }

/-- An income transaction of category 1 at one second past midnight,
December 31st 2020. -/
def dec31Tx : Transaction :=
  { amount := 100, type := "I", date_timestamp := 86400 * daysFromCivil 2020 12 31 + 1,
    categories_category_id := 1,
    accounts_account_to_id := none, accounts_account_from_id := none }

/-- Database holding only `dec31Tx`. -/
def dec31Db : FinDb :=
  { accounts := [], transactions := [dec31Tx] }

/-- An empty financial database. -/
def emptyFinDb : FinDb :=
  { accounts := [], transactions := [] }

/-- A concrete, fully computable environment for the user-service
witnesses. -/
def witnessEnv : LoginEnv :=
  { hashPassword := fun p => p ++ "#hash"
    verifyPassword := fun p h => h == p ++ "#hash"
    generateNewSessionKeyForUser := fun _ _ => { sessionkey := "freshkey", trustlimit := 9 }
    getAccountsForUser := fun _ => [{ account_id := 3, current_balance := some 250 }]
    convertBigIntegerToFloat := fun i => (i : Rat) / 100 }

/-- The stored user for the user-service witnesses. -/
def aliceRec : UserRec :=
  { user_id := 1, username := "alice", password := "pw#hash", email := "a@b.c",
    sessionkey := some "oldkey", sessionkey_mobile := none,
    trustlimit := some 4, trustlimit_mobile := none,
    last_update_timestamp := some 123 }

/-- The category row of `budgetWitnessDb`. -/
def foodCategory : Category :=
  { users_user_id := 1, category_id := 10, name := "Food", status := "Ativa",
    type := "E", description := "", color_gradient := "", exclude_from_budgets := false }

/-- The budget row of `budgetWitnessDb`. -/
def foodBudgetRow : BudgetHasCategoriesRow :=
  { budgets_users_user_id := 1, budgets_budget_id := 2, categories_category_id := 10,
    planned_amount_credit := some 1234, planned_amount_debit := none,
    current_amount := some 5000 }

/-- A one-category, one-budget-row database for the C7 witness. -/
def budgetWitnessDb : CatDb :=
  { categories := [foodCategory],
    budgets_has_categories := [foodBudgetRow] }


/-- Follows the wording of claim C8: the entries joined with a comma and
space between consecutive entries. -/
def joinWithCommaSpace : List String → String
  | [] => ""
  | [x] => x
  | x :: xs => x ++ ", " ++ joinWithCommaSpace xs

/-- Two excluded accounts, for the C8 witness. -/
def twoAccounts : List Account :=
  [{ account_id := 1, exclude_from_budgets := true },
   { account_id := 2, exclude_from_budgets := true }]

/-- Checks that the monetary fields of an output row are
`truncate(coalesce(x, 0) / 100, 2)` of amounts stored in a
`budgets_has_categories` row matching the user, budget and category — or
of NULL, when the right join matched no budget row. -/
def rowAmountsFromStored (db : CatDb) (userId budgetId : Int) (row : BudgetCategoryRow) : Bool :=
  (db.budgets_has_categories.any fun b =>
    (b.budgets_users_user_id == userId) && (b.budgets_budget_id == budgetId) &&
      (b.categories_category_id == row.category_id) &&
      decide (row.planned_amount_credit = moneyOut b.planned_amount_credit) &&
      decide (row.planned_amount_debit = moneyOut b.planned_amount_debit) &&
      decide (row.current_amount = moneyOut b.current_amount)) ||
  ((row.budgets_budget_id == none) &&
    decide (row.planned_amount_credit = moneyOut none) &&
    decide (row.planned_amount_debit = moneyOut none) &&
    decide (row.current_amount = moneyOut none))

/-! Section: Theorems settling the claims -/

theorem buildSqlLoop_eq_join (l : List Account) :
    buildSqlForExcludedAccountsListLoop l =
      joinWithCommaSpace (l.map (fun a => " \x27" ++ toString a.account_id ++ "\x27 ")) := by
  induction l with
  | nil => rfl
  | cons a rest ih =>
    cases rest with
    | nil => rfl
    | cons b t =>
      simp only [buildSqlForExcludedAccountsListLoop]
      rw [ih]
      rfl

/-- Claim C8: `buildSqlForExcludedAccountsList` returns " -1 " for a
missing or empty list, and otherwise the in-order quoted ids joined by
", ". -/
theorem buildSqlForExcludedAccountsList_spec (l : List Account) (h : l ≠ []) :
    buildSqlForExcludedAccountsList none = " -1 " ∧
    buildSqlForExcludedAccountsList (some []) = " -1 " ∧
    buildSqlForExcludedAccountsList (some l) =
      joinWithCommaSpace (l.map (fun a => " \x27" ++ toString a.account_id ++ "\x27 ")) := by
  refine ⟨rfl, rfl, ?_⟩
  show (if l.length = 0 then " -1 " else buildSqlForExcludedAccountsListLoop l) = _
  rw [if_neg (by simpa using h)]
  exact buildSqlLoop_eq_join l

theorem buildSqlForExcludedAccountsList_witness :
    twoAccounts ≠ [] ∧
    (buildSqlForExcludedAccountsList none = " -1 " ∧
     buildSqlForExcludedAccountsList (some []) = " -1 " ∧
     buildSqlForExcludedAccountsList (some twoAccounts) =
       joinWithCommaSpace (twoAccounts.map (fun a => " \x27" ++ toString a.account_id ++ "\x27 "))) :=
  ⟨by decide, buildSqlForExcludedAccountsList_spec twoAccounts (by decide)⟩

/-- Claim C1 (counterexample evaluation): with account 7 excluded from
budgets and one in-window transfer of 100 into it, the code counts the
transfer in `category_balance_credit` (the `NOT IN` list is bound as the
single string parameter " \x277\x27 ", which no account id matches),
while the claimed exclusion sum is 0. -/
theorem getAmountForCategoryInPeriod_counts_excluded_transfer :
    getAmountForCategoryInPeriod exclusionBugDb 1 0 100 true =
      [{ category_balance_credit := 100, category_balance_debit := 100 }] ∧
    claimedCreditInPeriod exclusionBugDb 1 0 100 = 0 ∧
    claimedDebitInPeriod exclusionBugDb 1 0 100 = 100 := by
  decide

/-- Claim C3 (counterexample evaluation): an income transaction of
category 1 one second into December 31st 2020 lies inside calendar year
2020, yet `getAmountForCategoryInYear` returns zero sums for 2020 —
its upper bound is midnight at the start of December 31st. -/
theorem getAmountForCategoryInYear_misses_dec31 :
    getAmountForCategoryInYear dec31Db 1 2020 true =
      some { category_balance_credit := 0, category_balance_debit := 0 } ∧
    firstInstantOfMonth 2020 1 ≤ dec31Tx.date_timestamp ∧
    dec31Tx.date_timestamp < firstInstantOfMonth 2021 1 := by
  decide

/-- Claim C4: the query text of `getAmountForCategoryInPeriod` (for a
fixed `includeTransfers` branch) and of
`getAverageAmountForCategoryInLast12Months` is independent of the
category id, date bounds and excluded accounts; those values are sent
only in the bound-parameter list. -/
theorem queriesAreParameterized :
    (∀ (includeTransfers : Bool) (db1 db2 : FinDb) (c1 f1 t1 c2 f2 t2 : Int),
      (getAmountForCategoryInPeriodQuery db1 c1 f1 t1 includeTransfers).text =
        (getAmountForCategoryInPeriodQuery db2 c2 f2 t2 includeTransfers).text) ∧
    (∀ (db1 db2 : FinDb) (c1 c2 : Int),
      (getAverageAmountForCategoryInLast12MonthsQuery db1 c1).text =
        (getAverageAmountForCategoryInLast12MonthsQuery db2 c2).text) ∧
    (∀ (db : FinDb) (c f t : Int),
      (getAmountForCategoryInPeriodQuery db c f t true).params =
        [.str (excludedAccountsSql db), .str (excludedAccountsSql db),
         .int f, .int t, .int c]) ∧
    (∀ (db : FinDb) (c f t : Int),
      (getAmountForCategoryInPeriodQuery db c f t false).params =
        [.int f, .int t, .int c]) ∧
    (∀ (db : FinDb) (c : Int),
      (getAverageAmountForCategoryInLast12MonthsQuery db c).params =
        [.str (avgExclusionFragmentTo db), .str (avgExclusionFragmentFrom db), .int c]) := by
  refine ⟨?_, ?_, ?_, ?_, ?_⟩
  · intro it db1 db2 c1 f1 t1 c2 f2 t2
    cases it <;> rfl
  · intro db1 db2 c1 c2; rfl
  · intro db c f t; rfl
  · intro db c f t; rfl
  · intro db c; rfl

/-- Claim C2: for a month in 1..12 the window runs from the first
instant of that month to the first instant of the following month
(January of the next year after December), and the function returns the
first row of the period query result. -/
theorem getAmountForCategoryInMonth_range (db : FinDb) (categoryId y m : Int)
    (includeTransfers : Bool) (h1 : 1 ≤ m) (h2 : m ≤ 12) :
    getAmountForCategoryInMonth db categoryId m y includeTransfers =
      (getAmountForCategoryInPeriod db categoryId (firstInstantOfMonth y m)
        (if m = 12 then firstInstantOfMonth (y + 1) 1
         else firstInstantOfMonth y (m + 1)) includeTransfers).head? := by
  unfold getAmountForCategoryInMonth getUnixTimestampFromDate firstInstantOfMonth
  by_cases hm : m < 12
  · rw [if_pos hm, if_pos hm, if_neg (by omega)]
    have e1 : m - 1 + 1 = m := by ring
    have e2 : m + 1 - 1 + 1 = m + 1 := by ring
    simp only [e1, e2]
  · have hm12 : m = 12 := by omega
    subst hm12
    norm_num

theorem getAmountForCategoryInMonth_range_witness :
    (1 : Int) ≤ 12 ∧ (12 : Int) ≤ 12 ∧
    getAmountForCategoryInMonth emptyFinDb 5 12 2020 true =
      (getAmountForCategoryInPeriod emptyFinDb 5 (firstInstantOfMonth 2020 12)
        (if (12 : Int) = 12 then firstInstantOfMonth (2020 + 1) 1
         else firstInstantOfMonth 2020 (12 + 1)) true).head? :=
  ⟨by norm_num, by norm_num,
   getAmountForCategoryInMonth_range emptyFinDb 5 2020 12 true (by norm_num) (by norm_num)⟩

theorem changeUserPassword_notFound (env : LoginEnv) (users : List UserRec) (userId : Int)
    (currentPassword newPassword : String) (mobile : Bool)
    (hfind : findUserById users userId = none) :
    changeUserPassword env users userId currentPassword newPassword mobile =
      { error := some (.notAuthorized "User Not Found"), users := users,
        sessionRegens := [] } := by
  unfold changeUserPassword
  rw [hfind]

theorem changeUserPassword_found (env : LoginEnv) (users : List UserRec) (userId : Int)
    (currentPassword newPassword : String) (mobile : Bool) (found : UserRec)
    (hfind : findUserById users userId = some found) :
    changeUserPassword env users userId currentPassword newPassword mobile =
      (if env.verifyPassword currentPassword found.password = true then
        { error := none
          users := users.map fun u =>
            if (u.user_id == userId) = true then
              { u with password := env.hashPassword newPassword } else u
          sessionRegens := [(found.username, mobile)] }
      else
        { error := some (.notAuthorized "Wrong credentials"), users := users,
          sessionRegens := [] }) := by
  unfold changeUserPassword
  rw [hfind]

/-- Claim C5: the value `createUser` writes to the password field is the
hash of the supplied plaintext, and after a successful
`changeUserPassword` every record of the target user stores the hash of
the new plaintext. -/
theorem storedPasswordsAreHashes (env : LoginEnv) (user : UserRec) (users : List UserRec)
    (userId : Int) (currentPassword newPassword : String) (mobile : Bool)
    (hok : (changeUserPassword env users userId currentPassword newPassword mobile).error =
      none) :
    (createUser env user).password = env.hashPassword user.password ∧
    ((changeUserPassword env users userId currentPassword newPassword mobile).users.all
      fun u => (u.user_id != userId) || (u.password == env.hashPassword newPassword)) = true := by
  refine ⟨rfl, ?_⟩
  cases hfind : findUserById users userId with
  | none =>
    rw [changeUserPassword_notFound env users userId currentPassword newPassword mobile
      hfind] at hok
    simp at hok
  | some found =>
    rw [changeUserPassword_found env users userId currentPassword newPassword mobile found
      hfind] at hok ⊢
    by_cases hv : env.verifyPassword currentPassword found.password = true
    · rw [if_pos hv]
      simp only [List.all_eq_true, List.mem_map, forall_exists_index, and_imp]
      intro u u0 hu0 hu
      subst hu
      by_cases h0 : (u0.user_id == userId) = true
      · simp [h0]
      · rw [if_neg h0]
        have h1 : (u0.user_id != userId) = true := by simpa using h0
        simp [h1]
    · rw [if_neg hv] at hok
      simp at hok

theorem storedPasswordsAreHashes_witness :
    (changeUserPassword witnessEnv [aliceRec] 1 "pw" "npw" false).error = none ∧
    ((createUser witnessEnv aliceRec).password = witnessEnv.hashPassword aliceRec.password ∧
     ((changeUserPassword witnessEnv [aliceRec] 1 "pw" "npw" false).users.all
       fun u => (u.user_id != 1) || (u.password == witnessEnv.hashPassword "npw")) = true) :=
  ⟨by decide, storedPasswordsAreHashes witnessEnv aliceRec [aliceRec] 1 "pw" "npw" false
    (by decide)⟩

theorem attemptLogin_notFound (env : LoginEnv) (users : List UserRec)
    (username password : String) (mobile : Bool)
    (hfind : findUserByUsername users username = none) :
    attemptLogin env users username password mobile =
      .error (.notAuthorized "User Not Found") := by
  unfold attemptLogin
  rw [hfind]

theorem attemptLogin_found (env : LoginEnv) (users : List UserRec)
    (username password : String) (mobile : Bool) (found : UserRec)
    (hfind : findUserByUsername users username = some found) :
    attemptLogin env users username password mobile =
      (if env.verifyPassword password found.password = true then
        let newSessionData := env.generateNewSessionKeyForUser username mobile
        let data :=
          if mobile then
            { found with sessionkey_mobile := some newSessionData.sessionkey,
                         trustlimit_mobile := some newSessionData.trustlimit }
          else
            { found with sessionkey := some newSessionData.sessionkey,
                         trustlimit := some newSessionData.trustlimit }
        let userAccounts := env.getAccountsForUser data.user_id
        .ok { user_id := data.user_id
              username := data.username
              email := data.email
              sessionkey := data.sessionkey
              sessionkey_mobile := data.sessionkey_mobile
              last_update_timestamp := data.last_update_timestamp
              accounts := userAccounts.map (fun a =>
                { account := a
                  balance := env.convertBigIntegerToFloat (a.current_balance.getD 0) }) }
      else .error (.notAuthorized "Wrong Credentials")) := by
  unfold attemptLogin
  rw [hfind]

/-- Claim C6: `attemptLogin` fails with the not-authorized error
"User Not Found" exactly when no user matches the username, with
"Wrong Credentials" when the password does not verify, and otherwise
returns the user id, username, email, the freshly generated session
key in the slot selected by `mobile`, the last update timestamp, and the
mapped accounts; an error is raised if and only if authentication
fails. -/
theorem attemptLogin_spec (env : LoginEnv) (users : List UserRec)
    (username password : String) (mobile : Bool) :
    (findUserByUsername users username = none →
      attemptLogin env users username password mobile =
        .error (.notAuthorized "User Not Found")) ∧
    (∀ found, findUserByUsername users username = some found →
      env.verifyPassword password found.password = false →
      attemptLogin env users username password mobile =
        .error (.notAuthorized "Wrong Credentials")) ∧
    (∀ found, findUserByUsername users username = some found →
      env.verifyPassword password found.password = true →
      (∃ r, attemptLogin env users username password mobile = .ok r ∧
        r.user_id = found.user_id ∧
        r.username = found.username ∧
        r.email = found.email ∧
        (if mobile then
           r.sessionkey_mobile =
             some (env.generateNewSessionKeyForUser username mobile).sessionkey
         else
           r.sessionkey =
             some (env.generateNewSessionKeyForUser username mobile).sessionkey) ∧
        r.last_update_timestamp = found.last_update_timestamp ∧
        r.accounts = (env.getAccountsForUser found.user_id).map (fun a =>
          { account := a
            balance := env.convertBigIntegerToFloat (a.current_balance.getD 0) }))) ∧
    ((∃ e, attemptLogin env users username password mobile = .error e) ↔
      (findUserByUsername users username = none ∨
        ∃ found, findUserByUsername users username = some found ∧
          env.verifyPassword password found.password = false)) := by
  cases hfind : findUserByUsername users username with
  | none =>
    have hrun := attemptLogin_notFound env users username password mobile hfind
    refine ⟨fun _ => hrun, fun f hf => by simp at hf, fun f hf => by simp at hf, ?_⟩
    constructor
    · intro _
      exact Or.inl rfl
    · intro _
      exact ⟨.notAuthorized "User Not Found", hrun⟩
  | some found =>
    have hred := attemptLogin_found env users username password mobile found hfind
    by_cases hv : env.verifyPassword password found.password = true
    · refine ⟨fun hn => absurd hn (by simp), fun f hf hvf => ?_, fun f hf hvt => ?_, ?_⟩
      · obtain rfl := Option.some.inj hf
        rw [hv] at hvf
        exact absurd hvf (by simp)
      · obtain rfl := Option.some.inj hf
        rw [hred, if_pos hv]
        cases mobile with
        | false => exact ⟨_, rfl, rfl, rfl, rfl, rfl, rfl, rfl⟩
        | true => exact ⟨_, rfl, rfl, rfl, rfl, rfl, rfl, rfl⟩
      · constructor
        · rintro ⟨e, he⟩
          rw [hred, if_pos hv] at he
          cases mobile <;> simp at he
        · rintro (hn | ⟨f, hf, hvf⟩)
          · exact absurd hn (by simp)
          · obtain rfl := Option.some.inj hf
            rw [hv] at hvf
            exact absurd hvf (by simp)
    · have hrun : attemptLogin env users username password mobile =
          .error (.notAuthorized "Wrong Credentials") := by
        rw [hred, if_neg hv]
      refine ⟨fun hn => absurd hn (by simp), fun f hf _ => ?_, fun f hf hvt => ?_, ?_⟩
      · obtain rfl := Option.some.inj hf
        exact hrun
      · obtain rfl := Option.some.inj hf
        rw [hvt] at hv
        exact absurd rfl hv
      · constructor
        · intro _
          exact Or.inr ⟨found, rfl, by simpa using hv⟩
        · intro _
          exact ⟨.notAuthorized "Wrong Credentials", hrun⟩

theorem attemptLogin_spec_witness :
    findUserByUsername ([] : List UserRec) "alice" = none ∧
    attemptLogin witnessEnv [] "alice" "pw" false = .error (.notAuthorized "User Not Found") :=
  ⟨rfl, (attemptLogin_spec witnessEnv [] "alice" "pw" false).1 rfl⟩

/-- Claim C7: every row `getAllCategoriesForBudget` returns belongs to
the requested user, has the ACTIVE status, and its three monetary fields
are `truncate(coalesce(stored, 0) / 100, 2)` of the amounts stored in a
matching `budgets_has_categories` row (of NULL when the right join
matched none). -/
theorem getAllCategoriesForBudget_spec (db : CatDb) (userId budgetId : Int) (active : String)
    (row : BudgetCategoryRow)
    (hrow : row ∈ getAllCategoriesForBudget db userId budgetId active) :
    row.users_user_id = userId ∧ row.status = active ∧
    rowAmountsFromStored db userId budgetId row = true := by
  simp only [getAllCategoriesForBudget, List.mem_filter, List.mem_flatMap,
    Bool.and_eq_true, beq_iff_eq] at hrow
  obtain ⟨⟨c, hc, hrow2⟩, hu, hs⟩ := hrow
  refine ⟨hu, hs, ?_⟩
  by_cases hempty : ((db.budgets_has_categories.filter (fun r =>
      (r.budgets_users_user_id == userId) && (r.budgets_budget_id == budgetId))).filter
        (fun r => r.categories_category_id == c.category_id)).isEmpty
  · rw [if_pos hempty] at hrow2
    rw [List.mem_singleton] at hrow2
    subst hrow2
    unfold rowAmountsFromStored
    rw [Bool.or_eq_true]
    right
    simp [joinRow]
  · rw [if_neg hempty] at hrow2
    rw [List.mem_map] at hrow2
    obtain ⟨b, hb, hrow3⟩ := hrow2
    subst hrow3
    rw [List.mem_filter, List.mem_filter] at hb
    obtain ⟨⟨hbmem, hbub⟩, hbcat⟩ := hb
    unfold rowAmountsFromStored
    rw [Bool.or_eq_true]
    left
    rw [List.any_eq_true]
    refine ⟨b, hbmem, ?_⟩
    simp only [Bool.and_eq_true, beq_iff_eq] at hbub
    rw [beq_iff_eq] at hbcat
    simp [joinRow, hbub.1, hbub.2, hbcat]

theorem getAllCategoriesForBudget_spec_witness :
    joinRow foodCategory (some foodBudgetRow) ∈
      getAllCategoriesForBudget budgetWitnessDb 1 2 "Ativa" ∧
    ((joinRow foodCategory (some foodBudgetRow)).users_user_id = 1 ∧
     (joinRow foodCategory (some foodBudgetRow)).status = "Ativa" ∧
     rowAmountsFromStored budgetWitnessDb 1 2 (joinRow foodCategory (some foodBudgetRow)) =
       true) :=
  ⟨by
    rw [show getAllCategoriesForBudget budgetWitnessDb 1 2 "Ativa" =
        [joinRow foodCategory (some foodBudgetRow)] from rfl]
    exact List.mem_singleton.mpr rfl,
   getAllCategoriesForBudget_spec budgetWitnessDb 1 2 "Ativa"
    (joinRow foodCategory (some foodBudgetRow)) (by
      rw [show getAllCategoriesForBudget budgetWitnessDb 1 2 "Ativa" =
          [joinRow foodCategory (some foodBudgetRow)] from rfl]
      exact List.mem_singleton.mpr rfl)⟩

/-- Claim C9: when the current password does not verify (or the user
does not exist), `changeUserPassword` raises a not-authorized error, the
users table is unchanged, and no session key is regenerated. -/
theorem changeUserPassword_atomic_on_error (env : LoginEnv) (users : List UserRec)
    (userId : Int) (currentPassword newPassword : String) (mobile : Bool)
    (h : ((findUserById users userId).all
      fun found => !env.verifyPassword currentPassword found.password) = true) :
    ((changeUserPassword env users userId currentPassword newPassword mobile).error =
        some (.notAuthorized "User Not Found") ∨
     (changeUserPassword env users userId currentPassword newPassword mobile).error =
        some (.notAuthorized "Wrong credentials")) ∧
    (changeUserPassword env users userId currentPassword newPassword mobile).users = users ∧
    (changeUserPassword env users userId currentPassword newPassword mobile).sessionRegens =
      [] := by
  cases hfind : findUserById users userId with
  | none =>
    rw [changeUserPassword_notFound env users userId currentPassword newPassword mobile hfind]
    exact ⟨Or.inl rfl, rfl, rfl⟩
  | some found =>
    rw [hfind] at h
    simp only [Option.all_some, Bool.not_eq_true'] at h
    rw [changeUserPassword_found env users userId currentPassword newPassword mobile found
      hfind, if_neg (by simp [h])]
    exact ⟨Or.inr rfl, rfl, rfl⟩

theorem changeUserPassword_atomic_on_error_witness :
    ((findUserById [aliceRec] 1).all
      fun found => !witnessEnv.verifyPassword "wrong" found.password) = true ∧
    (((changeUserPassword witnessEnv [aliceRec] 1 "wrong" "npw" false).error =
        some (.notAuthorized "User Not Found") ∨
      (changeUserPassword witnessEnv [aliceRec] 1 "wrong" "npw" false).error =
        some (.notAuthorized "Wrong credentials")) ∧
     (changeUserPassword witnessEnv [aliceRec] 1 "wrong" "npw" false).users = [aliceRec] ∧
     (changeUserPassword witnessEnv [aliceRec] 1 "wrong" "npw" false).sessionRegens = []) :=
  ⟨by decide, changeUserPassword_atomic_on_error witnessEnv [aliceRec] 1 "wrong" "npw" false
    (by decide)⟩

theorem optionMatchIdCatDb (o : Option CatDb) :
    (match o with | none => none | some x => some x) = o := by
  cases o <;> rfl

theorem deleteCategory_transaction_step (s : CatDb) (userId categoryId : Int) :
    prismaTransaction s (deleteCategoryOps userId categoryId) =
      (if (s.categories.any fun c =>
            (c.users_user_id == userId) && (c.category_id == categoryId)) = true
       then some { categories := s.categories.filter fun c =>
                     !((c.users_user_id == userId) && (c.category_id == categoryId)),
                   budgets_has_categories := s.budgets_has_categories.filter fun r =>
                     !((r.categories_category_id == categoryId) &&
                       (r.budgets_users_user_id == userId)) }
       else none) :=
  optionMatchIdCatDb _

/-- Claim C10: `deleteCategory` batches the reference deletion and the
category deletion in one `prisma.$transaction`, so afterwards either no
`budgets_has_categories` reference and no category row for that user and
category remain, or the state is unchanged. -/
theorem deleteCategory_atomic (s : CatDb) (userId categoryId : Int) :
    (((deleteCategory s userId categoryId).budgets_has_categories.all fun r =>
        !((r.categories_category_id == categoryId) && (r.budgets_users_user_id == userId))) &&
     ((deleteCategory s userId categoryId).categories.all fun c =>
        !((c.users_user_id == userId) && (c.category_id == categoryId)))) = true ∨
    deleteCategory s userId categoryId = s := by
  unfold deleteCategory
  rw [deleteCategory_transaction_step s userId categoryId]
  by_cases hany : (s.categories.any fun c =>
      (c.users_user_id == userId) && (c.category_id == categoryId)) = true
  · rw [if_pos hany]
    left
    simp only [Bool.and_eq_true, List.all_eq_true]
    constructor
    · intro r hr
      rw [List.mem_filter] at hr
      exact hr.2
    · intro c hc
      rw [List.mem_filter] at hc
      exact hc.2
  · rw [if_neg hany]
    right
    rfl

end Myfin
